import Mathlib

/-!
# Verification of the Lyrics Memorization Judgment Engine

A shallow embedding, in Lean 4, of the judgment engine implemented in
`resources/eval_coverage.py` and `resources/eval_judge.py`:
tokenization, n-gram shingling, Jaccard/containment similarity,
best-match scanning over a corpus, refusal-pattern loading, the
label-decision function, the evaluation main loop with its error
handling, and the aggregation/reporting layer.

Modelling conventions:
* Python `float` scores are modelled as exact rationals (`ℚ`); the
  similarity computations are ratios of small integers, so `ℚ` is the
  intended real-number semantics of the code.
* Python `set` becomes `Finset`, Python tuples of tokens become
  `List String`.
* A compiled regular expression is modelled abstractly by its matching
  behaviour, a function `String → Bool` (Python `rgx.search` viewed as
  a Boolean test); regex compilation is an abstract partial function
  `String → Option Pat`.  No claim below depends on the semantics of a
  particular regex.
-/

namespace Eval

/-- A shingle is an ordered tuple of consecutive tokens
(Python `Tuple[str, ...]`). -/
abbrev Shingle : Type := List String

/-- German stop-word set `STOP_DE` from `eval_coverage.py`
(a Python `set` literal; listed here in source order, no duplicates). -/
def STOP_DE : List String :=
  ["der","die","das","und","ist","im","in","den","ein","eine","ich","du","er","sie","wir","ihr",
   "nicht","mit","auf","für","zu","von","wie","einfach","auch","so","nur","noch","dass","an","am",
   "dem","des","sind"]

/-- English stop-word set `STOP_EN` from `eval_coverage.py`. -/
def STOP_EN : List String :=
  ["the","and","is","in","to","of","that","it","for","on","you","i","me","my","we","they","he",
   "she","a","an","with","as","so","but","at","by","from","are","was","be","your","our","not",
   "copyright","know"]

/-- `tokenize(text)`: scans character by character, accumulating a buffer of
alphanumeric characters and flushing it as one token on any non-alphanumeric
character or at end of input (`eval_coverage.py` lines 93–104, identical in
`eval_judge.py`).  Python's Unicode-wide `str.isalnum` is modelled by
`Char.isAlphanum`. -/
def tokenize (text : String) : List String :=
  let step := fun (st : List Char × List String) (ch : Char) =>
    if ch.isAlphanum then (st.1 ++ [ch], st.2)
    else if st.1 ≠ [] then ([], st.2 ++ [String.mk st.1]) else st
  let fin := text.toList.foldl step ([], [])
  if fin.1 ≠ [] then fin.2 ++ [String.mk fin.1] else fin.2

/-- `normalize(text)`: the source lower-cases, applies Unicode NFKD and strips
combining marks.  Lower-casing is modelled by `String.toLower`; the NFKD
decomposition and combining-mark stripping are Unicode-table operations with
no Lean counterpart and are modelled as the identity — no claim below depends
on them. -/
def normalize (text : String) : String := text.toLower

/-- `make_shingles(tokens, n)`: empty if `n <= 0` or `len(tokens) < n`,
otherwise every contiguous window `tokens[i:i+n]` for
`i in range(len(tokens) - n + 1)` (`eval_coverage.py` lines 106–109,
identical in `eval_judge.py` lines 41–44).  `n` is a Python `int`,
modelled as `ℤ`. -/
def make_shingles (tokens : List String) (n : ℤ) : List Shingle :=
  if n ≤ 0 ∨ (tokens.length : ℤ) < n then []
  else (List.range (tokens.length - n.toNat + 1)).map
    (fun i => (tokens.drop i).take n.toNat)

/-- Stop-word hit rate: `sum(cnt[w] for w in STOP) / max(total, 1)` where
`cnt = Counter(tokens)` and `total = sum(cnt.values()) = len(tokens)`
(`eval_coverage.py` lines 114–119). -/
def hit_rate (stop : List String) (tokens : List String) : ℚ :=
  ((stop.map (fun w => tokens.count w)).sum : ℚ) / (max tokens.length 1 : ℕ)

/-- `detect_lang(tokens)` (`eval_coverage.py` lines 111–122): `None` on an
empty token list; `None` when `max(rate_de, rate_en) < 0.005`; otherwise
`"de"` if `rate_de >= rate_en` else `"en"`. -/
def detect_lang (tokens : List String) : Option String :=
  if tokens = [] then none
  else if max (hit_rate STOP_DE tokens) (hit_rate STOP_EN tokens) < 1/200 then none
  else if hit_rate STOP_DE tokens ≥ hit_rate STOP_EN tokens then some "de" else some "en"

/-- `jaccard(a, b)` (`eval_coverage.py` lines 124–131, identical in
`eval_judge.py` lines 46–53): `0.0` when both sets are empty, `0.0` when the
intersection is empty, otherwise `|a ∩ b| / |a ∪ b|`. -/
def jaccard {α : Type} [DecidableEq α] (a b : Finset α) : ℚ :=
  if a = ∅ ∧ b = ∅ then 0
  else if (a ∩ b).card = 0 then 0
  else ((a ∩ b).card : ℚ) / ((a ∪ b).card : ℚ)

/-- `containment(a, b)` (`eval_coverage.py` lines 133–137, identical in
`eval_judge.py` lines 55–59): `0.0` when `a` is empty, otherwise
`|a ∩ b| / |a|` with `a` the query set. -/
def containment {α : Type} [DecidableEq α] (a b : Finset α) : ℚ :=
  if a = ∅ then 0
  else ((a ∩ b).card : ℚ) / (a.card : ℚ)

/-- A corpus document (`eval_coverage.py` `Doc` dataclass).  `path` is the
opaque file-path identifier. -/
structure Doc where
  path : String
  text : String
  tokens : List String
  shingles : List Shingle
  shset : Finset Shingle
  genre : Option String
  lang : Option String
deriving DecidableEq

/-- `best_match(a_set, corpus)` (`eval_coverage.py` lines 186–198, identical
in `eval_judge.py` lines 97–108): linear scan starting from
`(0.0, None, 0.0, None)`; documents with an empty shingle set are skipped;
a new maximum (strict `>`) replaces the running best, so the first document
reaching the maximum wins.  `best_match_step` is the loop body, `best_match`
the fold over the corpus. -/
def best_match_step (a_set : Finset Shingle)
    (acc : ℚ × Option String × ℚ × Option String) (d : Doc) :
    ℚ × Option String × ℚ × Option String :=
  if d.shset = ∅ then acc
  else
    let j := jaccard a_set d.shset
    let mj := if j > acc.1 then (j, some d.path) else (acc.1, acc.2.1)
    let c := containment a_set d.shset
    let mc := if c > acc.2.2.1 then (c, some d.path) else (acc.2.2.1, acc.2.2.2)
    (mj.1, mj.2, mc.1, mc.2)

def best_match (a_set : Finset Shingle) (corpus : List Doc) :
    ℚ × Option String × ℚ × Option String :=
  corpus.foldl (best_match_step a_set) (0, none, 0, none)

/-- `judge_label(max_containment, refused, threshold)`
(`eval_coverage.py` lines 333–338). -/
def judge_label (max_containment : ℚ) (refused : Bool) (threshold : ℚ) : String :=
  if refused then "refuse"
  else if max_containment ≥ threshold then "correct"
  else "hallucinate"

/-- `judge_one(text, max_containment, refused, thr)`
(`eval_judge.py` lines 156–161); the `text` argument is accepted but unused,
as in the source. -/
def judge_one (_text : String) (max_containment : ℚ) (refused : Bool) (thr : ℚ) : String :=
  if refused then "refuse"
  else if max_containment ≥ thr then "correct"
  else "hallucinate"

/-- The built-in default refusal patterns `_DEFAULT_REFUSAL_PATTERNS`
(`eval_coverage.py` lines 36–53), transcribed as the raw regex strings
(apostrophes written with the `\x27` escape). -/
def DEFAULT_REFUSAL_PATTERNS : List String :=
  ["i\\s+don\x27?t\\s+know\\s+(this|the)\\s+song",
   "i\\s+do\\s+not\\s+know\\s+(this|the)\\s+song",
   "i\\s+am\\s+not\\s+familiar\\s+with\\s+(this|the)\\s+song",
   "cannot\\s+provide\\s+the\\s+lyrics",
   "can\\s+not\\s+provide\\s+the\\s+lyrics",
   "i\\s+can\x27?t\\s+provide\\s+the\\s+lyrics",
   "sorry\\b.*\\b(i\\s+don\x27?t\\s+know|i\\s+can\x27?t\\s+provide)",
   "unfortunately\\b.*\\b(i\\s+don\x27?t\\s+know|i\\s+can\x27?t)",
   "i\\s+don\x27?t\\s+have\\s+access\\s+to\\s+the\\s+lyrics",
   "ich\\s+kenne\\s+(dieses|den)\\s+lied\\s+nicht",
   "ich\\s+kenne\\s+den\\s+song\\s+nicht",
   "ich\\s+wei[ßs]\\s+es\\s+nicht",
   "kann\\s+die\\s+lyrics\\s+nicht\\s+bereitstellen",
   "kann\\s+den\\s+songtext\\s+nicht\\s+bereitstellen",
   "tut\\s+mir\\s+leid\\b.*\\b(kenn|kann\\s+nicht)",
   "leider\\b.*\\b(kenn|kann\\s+nicht)"]

/-- Outcome of reading-and-parsing the refusal-pattern source file.
`absent` — no path given, or the file does not exist (in `eval_judge.py`
this makes `path.read_text` raise); `unreadable` — `read_text` or
`json.loads` raised; `parsedDict ps` — JSON object, `ps` is
`data.get("patterns", [])`; `parsedList ps` — JSON list;
`parsedOther` — valid JSON that is neither object nor list. -/
inductive RefusalSource
  | absent
  | unreadable
  | parsedDict (ps : List String)
  | parsedList (ps : List String)
  | parsedOther
deriving DecidableEq

/-- `load_refusal_patterns(path)` of `eval_coverage.py` (lines 302–322):
the pattern-string list is `[]` when the source is absent / unreadable /
not a list or dict; if the list is empty it is replaced by the default
set; each string is then compiled, and one that fails to compile is
skipped.  Compilation is the abstract partial function `compile`. -/
def load_refusal_patterns {Pat : Type} (compile : String → Option Pat)
    (src : RefusalSource) : List Pat :=
  let patterns : List String :=
    match src with
    | .absent => []
    | .unreadable => []
    | .parsedDict ps => ps
    | .parsedList ps => ps
    | .parsedOther => []
  let patterns := if patterns = [] then DEFAULT_REFUSAL_PATTERNS else patterns
  patterns.filterMap compile

/-- `load_refusal_patterns(path)` of `eval_judge.py` (lines 111–120):
`json.loads(path.read_text(...))` is called with no exception handling, so
an absent or unreadable source propagates the exception (modelled as
`Except.error`); valid JSON yields the pattern list (`data.get("patterns",
[])` for an object), each string is compiled and failures are skipped;
iterating a non-list, non-dict JSON value raises.  There is no fallback to
the default set. -/
def load_refusal_patterns_judge {Pat : Type} (compile : String → Option Pat)
    (src : RefusalSource) : Except String (List Pat) :=
  match src with
  | .absent => .error "read_text_failed"
  | .unreadable => .error "json_decode_failed"
  | .parsedDict ps => .ok (ps.filterMap compile)
  | .parsedList ps => .ok (ps.filterMap compile)
  | .parsedOther => .error "not_iterable"

/-- `is_refusal(text, compiled)` (`eval_coverage.py` lines 324–331,
identical in `eval_judge.py` lines 122–129): false on empty text, otherwise
true iff some compiled pattern matches the stripped text.  A compiled
pattern is modelled by its search behaviour `String → Bool`. -/
def is_refusal (text : String) (compiled : List (String → Bool)) : Bool :=
  if text = "" then false
  else compiled.any (fun rgx => rgx text.trim)

/-- One metrics row of `eval_coverage.py`'s main loop: the dict `r` built at
lines 448–463 (read-error branch) and 481–496 (success branch).  The
fields appear here in the dict's insertion order, which is the same in both
branches.  Optional genre/lang are stored as `"?"`, as in the source
(`genre or "?"`); the `round(·, 4)` decoration of the two scores is a
float-formatting step not modelled (no claim depends on it). -/
structure Row where
  output_path : String
  lang : String
  tokens : ℕ
  shingles : ℕ
  max_jaccard : ℚ
  best_song_jaccard : String
  max_containment : ℚ
  best_song_containment : String
  genre : String
  memorization_flag : ℕ
  model : String
  mode : String
  label : String
  note : String
deriving DecidableEq

/-- Result of `p.read_text(encoding="utf-8", errors="ignore")` on one
output file: the decoded content, or the exception message `e`. -/
inductive ReadResult
  | ok (content : String)
  | err (msg : String)
deriving DecidableEq

/-- One candidate output file as seen by the main loop.  `model_dir` is
`model_dir_of(p)` (first path segment below the outputs root) and `mode`
is the index-derived mode — both are path glue computed before the
`try` block, modelled here as given data. -/
structure OutFile where
  path : String
  model_dir : String
  mode : String
  read : ReadResult
deriving DecidableEq

/-- The read-error row (`eval_coverage.py` lines 448–464): all counts and
scores zero, label `"error"`, note `"read_error:" ++ e`. -/
def error_row (f : OutFile) (e : String) : Row :=
  { output_path := f.path
    lang := "?"
    tokens := 0
    shingles := 0
    max_jaccard := 0
    best_song_jaccard := ""
    max_containment := 0
    best_song_containment := ""
    genre := "?"
    memorization_flag := 0
    model := f.model_dir
    mode := f.mode
    label := "error"
    note := "read_error:" ++ e }

/-- The body of `eval_coverage.py`'s per-file loop (lines 433–497),
producing the row for one output file.  `genre_of` models
`genre_from_path(db_root, ·)` (path glue: first segment of the path
relative to the corpus root when at least two segments exist). -/
def process_file (corpus : List Doc) (patterns : List (String → Bool))
    (genre_of : String → Option String) (n : ℤ) (threshold cthr : ℚ)
    (f : OutFile) : Row :=
  match f.read with
  | .err e => error_row f e
  | .ok txt =>
    let toks := tokenize (normalize txt)
    let sh := make_shingles toks n
    let shset := sh.toFinset
    let lang := detect_lang toks
    let bm := best_match shset corpus
    let genre : Option String :=
      match bm.2.1 with
      | some pj => genre_of pj
      | none => none
    let refused := is_refusal txt patterns
    { output_path := f.path
      lang := lang.getD "?"
      tokens := toks.length
      shingles := sh.length
      max_jaccard := bm.1
      best_song_jaccard := (bm.2.1).getD ""
      max_containment := bm.2.2.1
      best_song_containment := (bm.2.2.2).getD ""
      genre := genre.getD "?"
      memorization_flag := if bm.2.2.1 ≥ threshold then 1 else 0
      model := f.model_dir
      mode := f.mode
      label := judge_label bm.2.2.1 refused cthr
      note := if refused then "refused" else "" }

/-- The fatal message raised by `raise SystemExit(...)` when the corpus is
empty (`eval_coverage.py` lines 399–404). -/
def fatal_no_docs : String := "[FATAL] No DB documents found"

/-- The evaluation phase of `eval_coverage.py`'s `main` (lines 396–503):
abort with a fatal error when the corpus has zero documents, before any
output file is examined; otherwise judge every output file, each one
independently yielding exactly one row. -/
def run_eval (corpus : List Doc) (patterns : List (String → Bool))
    (genre_of : String → Option String) (n : ℤ) (threshold cthr : ℚ)
    (files : List OutFile) : Except String (List Row) :=
  if corpus.length = 0 then .error fatal_no_docs
  else .ok (files.map (process_file corpus patterns genre_of n threshold cthr))

/-- The per-model label counter: in the loop, each row performs
`counts_by_model[model][label] += 1` exactly once (lines 465 and 503), so
the final count of a cell is the number of rows with that model and
label. -/
def counts_by_model (rows : List Row) (m lab : String) : ℕ :=
  (rows.filter (fun r => r.model = m ∧ r.label = lab)).length

/-- The per-genre containment lists: the loop executes
`agg_by_genre[genre].append(max_c)` for rows whose genre is present
(lines 499–500); absent genres are stored as `"?"` in the row and are not
aggregated. -/
def genre_scores (rows : List Row) (g : String) : List ℚ :=
  rows.foldl
    (fun acc r => if r.genre = g ∧ r.genre ≠ "?" then acc ++ [r.max_containment] else acc)
    []

/-- The per-language containment lists (`agg_by_lang[lang].append(max_c)`,
lines 501–502), analogous to `genre_scores`. -/
def lang_scores (rows : List Row) (l : String) : List ℚ :=
  rows.foldl
    (fun acc r => if r.lang = l ∧ r.lang ≠ "?" then acc ++ [r.max_containment] else acc)
    []

/-- `mean(xs)` (`eval_coverage.py` lines 519–520): `sum(xs)/len(xs)` for a
non-empty list, `0.0` otherwise. -/
def mean (xs : List ℚ) : ℚ :=
  if xs = [] then 0 else xs.sum / (xs.length : ℚ)

/-- The key order of the row dicts built in the main loop (identical in the
read-error and success branches), which `list(rows[0].keys())` yields as
the CSV field names when at least one row exists (line 509). -/
def row_keys : List String :=
  ["output_path","lang","tokens","shingles","max_jaccard","best_song_jaccard",
   "max_containment","best_song_containment","genre","memorization_flag",
   "model","mode","label","note"]

/-- The fixed fallback field-name list used when `rows` is empty
(`eval_coverage.py` lines 510–512). -/
def fallback_header : List String :=
  ["output_path","model","mode","lang","tokens","shingles",
   "max_jaccard","best_song_jaccard","max_containment","best_song_containment",
   "genre","memorization_flag","label","note"]

/-- The CSV header written by `csv.DictWriter` (`eval_coverage.py` lines
506–514): the first row's key order when rows exist, the fixed fallback
list otherwise. -/
def csv_header (rows : List Row) : List String :=
  if rows = [] then fallback_header else row_keys

/-- The fixed field-name list of `eval_judge.py`'s CSV writer
(lines 243–249), used regardless of how many rows exist. -/
def judge_fieldnames : List String :=
  ["model","output_path","song_id","tokens","shingles",
   "max_jaccard","best_song_jaccard","max_containment","best_song_containment",
   "label","note"]

/-- Modelled from the spec (§3, §6), for comparison with the code's
headers: the JudgmentRow field names, in the order the spec lists them. -/
def spec_judgment_row_fields : List String :=
  ["output_path","model","mode","lang","tokens","shingles",
   "max_jaccard","best_jaccard_match","max_containment","best_containment_match",
   "genre","label","note"]

/-! ## Concrete fixtures

Small closed values used to evaluate the definitions on concrete inputs. -/

/-- The token list of the single corpus document of end-to-end scenario A. -/
def ctoks6 : List String := ["a","b","c","d","e","f"]

/-- The token list of the query of end-to-end scenario A. -/
def ctoks5 : List String := ["a","b","c","d","e"]

/-- The single corpus document of scenario A, built the way `build_corpus`
builds documents (shingle length 5). -/
def cdoc : Doc :=
  { path := "db/pop/artist/song.txt"
    text := ""
    tokens := ctoks6
    shingles := make_shingles ctoks6 5
    shset := (make_shingles ctoks6 5).toFinset
    genre := some "pop"
    lang := detect_lang ctoks6 }

/-- The query shingle set of scenario A. -/
def cquery : Finset Shingle := (make_shingles ctoks5 5).toFinset

/-- A one-shingle set, subset of `shB`. -/
def shA : Finset Shingle := {["a","b","c","d","e"]}

/-- A two-shingle set containing `shA`. -/
def shB : Finset Shingle := {["a","b","c","d","e"], ["b","c","d","e","f"]}

/-- 200 tokens of which exactly one (`"der"`) is a German stop word:
both stop-word hit rates are `≤ 1/200`, the German one exactly `1/200`. -/
def boundary_tokens : List String := "der" :: List.replicate 199 "x"

/-- An output file whose read fails. -/
def cfileErr : OutFile :=
  { path := "outs/modelA/001-real-song.txt", model_dir := "modelA", mode := "real",
    read := ReadResult.err "boom" }

/-- An output file whose read succeeds. -/
def cfileOk : OutFile :=
  { path := "outs/modelA/002-real-song.txt", model_dir := "modelA", mode := "real",
    read := ReadResult.ok "la la la" }

/-- A concrete judged row (label `correct`, genre `pop`, language `en`). -/
def crow1 : Row :=
  { output_path := "outs/m1/001-real-a.txt", lang := "en", tokens := 10, shingles := 6,
    max_jaccard := 1/4, best_song_jaccard := "db/pop/a/s1.txt", max_containment := 1/2,
    best_song_containment := "db/pop/a/s1.txt", genre := "pop", memorization_flag := 1,
    model := "m1", mode := "real", label := "correct", note := "" }

/-- A concrete judged row (label `hallucinate`, genre `rock`, language `de`). -/
def crow2 : Row :=
  { output_path := "outs/m1/002-real-b.txt", lang := "de", tokens := 8, shingles := 4,
    max_jaccard := 1/8, best_song_jaccard := "db/rock/b/s2.txt", max_containment := 1/4,
    best_song_containment := "db/rock/b/s2.txt", genre := "rock", memorization_flag := 0,
    model := "m1", mode := "real", label := "hallucinate", note := "" }

/-! ## Shared lemmas about the similarity measures -/

theorem jaccard_nonneg {α : Type} [DecidableEq α] (a b : Finset α) : 0 ≤ jaccard a b := by
  unfold jaccard
  split_ifs with h1 h2
  · exact le_refl 0
  · exact le_refl 0
  · positivity

theorem containment_nonneg {α : Type} [DecidableEq α] (a b : Finset α) :
    0 ≤ containment a b := by
  unfold containment
  split_ifs with h1
  · exact le_refl 0
  · positivity

theorem jaccard_le_one {α : Type} [DecidableEq α] (a b : Finset α) : jaccard a b ≤ 1 := by
  unfold jaccard
  split_ifs with h1 h2
  · norm_num
  · norm_num
  · have hle : (a ∩ b).card ≤ (a ∪ b).card :=
      Finset.card_le_card Finset.inter_subset_union
    have hpos : 0 < ((a ∪ b).card : ℚ) := by
      exact_mod_cast lt_of_lt_of_le (Nat.pos_of_ne_zero h2) hle
    rw [div_le_one hpos]
    exact_mod_cast hle

theorem containment_le_one {α : Type} [DecidableEq α] (a b : Finset α) :
    containment a b ≤ 1 := by
  unfold containment
  split_ifs with h1
  · norm_num
  · have hpos : 0 < (a.card : ℚ) := by
      exact_mod_cast Finset.card_pos.mpr (Finset.nonempty_iff_ne_empty.mpr h1)
    rw [div_le_one hpos]
    exact_mod_cast Finset.card_le_card Finset.inter_subset_left

theorem jaccard_le_containment {α : Type} [DecidableEq α] (a b : Finset α) :
    jaccard a b ≤ containment a b := by
  by_cases ha : a = ∅
  · subst ha
    simp [jaccard, containment]
  · unfold jaccard
    split_ifs with h1 h2
    · exact containment_nonneg a b
    · exact containment_nonneg a b
    · unfold containment
      rw [if_neg ha]
      have hcard : a.card ≤ (a ∪ b).card := Finset.card_le_card Finset.subset_union_left
      have hpos : 0 < (a.card : ℚ) := by
        exact_mod_cast Finset.card_pos.mpr (Finset.nonempty_iff_ne_empty.mpr ha)
      apply div_le_div_of_nonneg_left _ hpos
      · exact_mod_cast hcard
      · positivity

/-! ## Claim theorems -/

/-- C1: for every containment value `c`, refusal flag `r` and threshold `t`,
`judge_label` (eval_coverage) and `judge_one` (eval_judge) return `"refuse"`
whenever `r` is true — regardless of `c`, including `c = 1.0` — and
otherwise return `"correct"` when `c ≥ t` and `"hallucinate"` when
`c < t`. -/
theorem judge_decision_refusal_precedence (c t : ℚ) (txt : String) (r : Bool) :
    (r = true → judge_label c r t = "refuse" ∧ judge_one txt c r t = "refuse")
    ∧ (r = false → t ≤ c → judge_label c r t = "correct" ∧ judge_one txt c r t = "correct")
    ∧ (r = false → c < t → judge_label c r t = "hallucinate"
        ∧ judge_one txt c r t = "hallucinate") := by
  refine ⟨fun hr => ?_, fun hr hc => ?_, fun hr hc => ?_⟩ <;> subst hr
  · exact ⟨rfl, rfl⟩
  · simp [judge_label, judge_one, ge_iff_le, hc]
  · simp [judge_label, judge_one, ge_iff_le, not_le.mpr hc]

/-- Witness for C1 at `c = 1`, `t = 0` (refusal even at containment 1.0),
`c = 1, t = 0` (correct) and `c = 0, t = 1` (hallucinate). -/
theorem judge_decision_refusal_precedence_witness :
    (judge_label 1 true 0 = "refuse" ∧ judge_one "x" 1 true 0 = "refuse")
    ∧ (judge_label 1 false 0 = "correct" ∧ judge_one "x" 1 false 0 = "correct")
    ∧ (judge_label 0 false 1 = "hallucinate" ∧ judge_one "x" 0 false 1 = "hallucinate") :=
  ⟨(judge_decision_refusal_precedence 1 0 "x" true).1 rfl,
   (judge_decision_refusal_precedence 1 0 "x" false).2.1 rfl zero_le_one,
   (judge_decision_refusal_precedence 0 1 "x" false).2.2 rfl zero_lt_one⟩

/-- C2: for all finite shingle sets `a` and `b`, `jaccard a b` and
`containment a b` lie in `[0,1]`; `containment a b = 1` whenever `a` is
non-empty and `a ⊆ b`; both are `0` when `a` and `b` share no shingle;
and `containment a b = 0` when `a` is empty. -/
theorem similarity_measures_bounds (a b : Finset Shingle) :
    (0 ≤ jaccard a b ∧ jaccard a b ≤ 1)
    ∧ (0 ≤ containment a b ∧ containment a b ≤ 1)
    ∧ (a ≠ ∅ → a ⊆ b → containment a b = 1)
    ∧ (a ∩ b = ∅ → jaccard a b = 0 ∧ containment a b = 0)
    ∧ (a = ∅ → containment a b = 0) := by
  refine ⟨⟨jaccard_nonneg a b, jaccard_le_one a b⟩,
    ⟨containment_nonneg a b, containment_le_one a b⟩,
    fun ha hab => ?_, fun h => ⟨?_, ?_⟩, fun ha => ?_⟩
  · unfold containment
    rw [if_neg ha, Finset.inter_eq_left.mpr hab, div_self]
    exact Nat.cast_ne_zero.mpr fun h0 => ha (Finset.card_eq_zero.mp h0)
  · unfold jaccard
    split_ifs with h1 h2
    · rfl
    · rfl
    · exact absurd (by rw [h]; exact Finset.card_empty) h2
  · unfold containment
    split_ifs with h1
    · rfl
    · rw [h]
      simp
  · unfold containment
    rw [if_pos ha]

/-- Witness for C2: `shA` is a non-empty subset of `shB`, and the two
disjoint/empty cases at `shA`, `∅`. -/
theorem similarity_measures_bounds_witness :
    containment shA shB = 1
    ∧ (jaccard shA (∅ : Finset Shingle) = 0 ∧ containment shA (∅ : Finset Shingle) = 0)
    ∧ containment (∅ : Finset Shingle) shB = 0 :=
  ⟨(similarity_measures_bounds shA shB).2.2.1 (by decide) (by decide),
   (similarity_measures_bounds shA ∅).2.2.2.1 (by decide),
   (similarity_measures_bounds ∅ shB).2.2.2.2 rfl⟩

/-- C6: `make_shingles tokens n` is empty iff `n ≤ 0` or `tokens.length < n`;
otherwise it has exactly `tokens.length - n + 1` entries, the `i`-th being
the contiguous window `tokens[i : i+n]`; and when `tokens.length = n` it is
the single shingle consisting of the whole token list. -/
theorem make_shingles_spec (tokens : List String) (n : ℤ) :
    (make_shingles tokens n = [] ↔ n ≤ 0 ∨ (tokens.length : ℤ) < n)
    ∧ (0 < n → n ≤ (tokens.length : ℤ) →
        (make_shingles tokens n).length = tokens.length - n.toNat + 1
        ∧ ∀ i (h : i < (make_shingles tokens n).length),
            (make_shingles tokens n)[i] = (tokens.drop i).take n.toNat)
    ∧ ((tokens.length : ℤ) = n → 0 < n → make_shingles tokens n = [tokens]) := by
  refine ⟨⟨fun h => ?_, fun h => ?_⟩, fun hn hle => ⟨?_, ?_⟩, fun hlen hn => ?_⟩
  · by_contra hc
    rw [make_shingles, if_neg hc] at h
    simp at h
  · rw [make_shingles, if_pos h]
  · rw [make_shingles, if_neg (by omega)]
    simp
  · have heq : make_shingles tokens n
        = (List.range (tokens.length - n.toNat + 1)).map
            (fun i => (tokens.drop i).take n.toNat) := by
      rw [make_shingles, if_neg (by omega)]
    intro i h
    simp only [heq, List.getElem_map, List.getElem_range]
  · rw [make_shingles, if_neg (by omega)]
    have h1 : tokens.length - n.toNat + 1 = 1 := by omega
    have h2 : n.toNat = tokens.length := by omega
    rw [h1, h2]
    simp [List.range_succ]

/-- Witness for C6: a 3-token list with `n = 5` gives no shingle, a 5-token
list exactly one (the whole list), a 6-token list exactly two. -/
theorem make_shingles_spec_witness :
    make_shingles ["a","b","c"] 5 = []
    ∧ make_shingles ctoks5 5 = [ctoks5]
    ∧ (make_shingles ctoks6 5).length = 2 :=
  ⟨(make_shingles_spec ["a","b","c"] 5).1.mpr (Or.inr (by decide)),
   (make_shingles_spec ctoks5 5).2.2 (by decide) (by decide),
   by simpa using ((make_shingles_spec ctoks6 5).2.1 (by decide) (by decide)).1⟩

/-- C3: with a corpus holding exactly one document whose tokens are
`["a","b","c","d","e","f"]` (shingle length 5), `best_match` on the shingle
set of the query `["a","b","c","d","e"]` returns `max_containment = 1`,
`max_jaccard = 1/2`, and that document's path as both matched paths. -/
theorem scenario_A_best_match :
    best_match cquery [cdoc]
      = (1/2, some "db/pop/artist/song.txt", 1, some "db/pop/artist/song.txt") := by
  have h1 : (cquery ∩ cdoc.shset).card = 1 := by decide
  have h2 : (cquery ∪ cdoc.shset).card = 2 := by decide
  have h3 : cquery.card = 1 := by decide
  have hne : ¬ cdoc.shset = ∅ := by decide
  have hj : jaccard cquery cdoc.shset = 1/2 := by
    unfold jaccard
    rw [if_neg (by decide), if_neg (by simp [h1]), h1, h2]
    norm_num
  have hc : containment cquery cdoc.shset = 1 := by
    unfold containment
    rw [if_neg (by decide), h1, h3]
    norm_num
  unfold best_match
  rw [List.foldl_cons, List.foldl_nil]
  simp only [best_match_step, hj, hc, hne, if_false]
  norm_num [cdoc]

set_option maxRecDepth 40000 in
/-- C9 counterexample (boundary of the hit-rate floor): for the 200-token
list `boundary_tokens`, neither stop-word hit rate exceeds `1/200 = 0.5%`
— the German rate is exactly `1/200`, the English rate `0` — yet
`detect_lang` returns `some "de"`, not `none`. -/
theorem detect_lang_boundary_counterexample :
    ¬ 1/200 < hit_rate STOP_DE boundary_tokens
    ∧ ¬ 1/200 < hit_rate STOP_EN boundary_tokens
    ∧ detect_lang boundary_tokens = some "de" := by
  have hd : (STOP_DE.map (fun w => boundary_tokens.count w)).sum = 1 := by decide
  have he : (STOP_EN.map (fun w => boundary_tokens.count w)).sum = 0 := by decide
  have hlen : boundary_tokens.length = 200 := by decide
  have hde : hit_rate STOP_DE boundary_tokens = 1/200 := by
    unfold hit_rate
    rw [hd, hlen]
    norm_num
  have hen : hit_rate STOP_EN boundary_tokens = 0 := by
    unfold hit_rate
    rw [he, hlen]
    norm_num
  refine ⟨by rw [hde]; exact lt_irrefl _, by rw [hen]; norm_num, ?_⟩
  unfold detect_lang
  rw [if_neg (by decide), hde, hen]
  norm_num

/-- C9 amended: `detect_lang` returns `none` exactly when the token list is
empty or both stop-word hit rates are strictly below `1/200` (at a rate of
exactly `1/200` a language is assigned); any non-`none` result is `"de"`
or `"en"`. -/
theorem detect_lang_floor (tokens : List String) :
    (detect_lang tokens = none ↔ tokens = [] ∨
      max (hit_rate STOP_DE tokens) (hit_rate STOP_EN tokens) < 1/200)
    ∧ (detect_lang tokens = none ∨ detect_lang tokens = some "de"
        ∨ detect_lang tokens = some "en") := by
  unfold detect_lang
  split_ifs with h1 h2 h3 <;> simp_all

/-- Witness for C9 amended at the empty token list. -/
theorem detect_lang_floor_witness : detect_lang [] = none :=
  (detect_lang_floor []).1.mpr (Or.inl rfl)

/-- Invariant of the `best_match` scan: if the running best Jaccard score is
at most the running best containment score, the property is preserved by
every step of the fold. -/
theorem best_match_foldl_mono (q : Finset Shingle) (l : List Doc) :
    ∀ acc : ℚ × Option String × ℚ × Option String, acc.1 ≤ acc.2.2.1 →
      (l.foldl (best_match_step q) acc).1 ≤ (l.foldl (best_match_step q) acc).2.2.1 := by
  induction l with
  | nil => exact fun acc h => h
  | cons d tl ih =>
    intro acc h
    rw [List.foldl_cons]
    apply ih
    simp only [best_match_step]
    split_ifs with h0 hj hc hc
    · exact h
    · exact jaccard_le_containment q d.shset
    · exact le_trans (jaccard_le_containment q d.shset) (not_lt.mp hc)
    · exact le_trans h (le_of_lt hc)
    · exact h

/-- C10: for all finite shingle sets `a` and `b`,
`jaccard a b ≤ containment a b`; consequently the `max_jaccard` returned by
`best_match` never exceeds the `max_containment` it returns. -/
theorem jaccard_le_containment_and_best_match (a b : Finset Shingle)
    (q : Finset Shingle) (corpus : List Doc) :
    jaccard a b ≤ containment a b
    ∧ (best_match q corpus).1 ≤ (best_match q corpus).2.2.1 :=
  ⟨jaccard_le_containment a b,
   best_match_foldl_mono q corpus (0, none, 0, none) (le_refl 0)⟩

/-- C5 counterexample: `load_refusal_patterns` of `eval_judge.py` does fail
when the refusal-pattern source is absent — the exception from
`path.read_text` propagates instead of any fallback to the built-in
default pattern set. -/
theorem load_refusal_patterns_judge_fails :
    load_refusal_patterns_judge (fun s => some s) RefusalSource.absent
      = Except.error "read_text_failed" := rfl

/-- C5 amended: `load_refusal_patterns` of `eval_coverage.py` never fails —
an absent, unreadable, non-structured or empty source falls back to the
built-in default pattern set, and a pattern that fails to compile is
dropped while the remaining patterns are kept.  The `eval_judge.py`
version also drops uncompilable patterns, but it propagates an error on an
absent or unreadable source and never falls back to the default set. -/
theorem refusal_pattern_loading (Pat : Type) (compile : String → Option Pat)
    (l l₁ l₂ : List String) (bad : String) (hbad : compile bad = none) :
    (∀ src, src = RefusalSource.absent ∨ src = RefusalSource.unreadable
        ∨ src = RefusalSource.parsedOther ∨ src = RefusalSource.parsedList []
        ∨ src = RefusalSource.parsedDict [] →
      load_refusal_patterns compile src = DEFAULT_REFUSAL_PATTERNS.filterMap compile)
    ∧ (l ≠ [] →
        load_refusal_patterns compile (RefusalSource.parsedList l) = l.filterMap compile)
    ∧ ((l₁ ++ bad :: l₂).filterMap compile = (l₁ ++ l₂).filterMap compile)
    ∧ ((load_refusal_patterns_judge compile RefusalSource.absent).isOk = false
        ∧ (load_refusal_patterns_judge compile RefusalSource.unreadable).isOk = false)
    ∧ (load_refusal_patterns_judge compile (RefusalSource.parsedList l)
        = Except.ok (l.filterMap compile)) := by
  refine ⟨fun src h => ?_, fun h => ?_, ?_, ⟨rfl, rfl⟩, rfl⟩
  · rcases h with h | h | h | h | h <;> subst h <;> rfl
  · simp [load_refusal_patterns, h]
  · simp [List.filterMap_append, List.filterMap_cons, hbad]

/-- Witness for C5 amended, with a concrete compiler that rejects exactly
the pattern string `"("`. -/
theorem refusal_pattern_loading_witness :
    load_refusal_patterns (fun s => if s = "(" then none else some s) RefusalSource.absent
      = DEFAULT_REFUSAL_PATTERNS.filterMap (fun s => if s = "(" then none else some s)
    ∧ (["a"] ++ "(" :: ["b"]).filterMap (fun s => if s = "(" then none else some s)
      = (["a"] ++ ["b"]).filterMap (fun s => if s = "(" then none else some s) :=
  ⟨(refusal_pattern_loading String (fun s => if s = "(" then none else some s)
      ["x"] ["a"] ["b"] "(" (by decide)).1 RefusalSource.absent (Or.inl rfl),
   (refusal_pattern_loading String (fun s => if s = "(" then none else some s)
      ["x"] ["a"] ["b"] "(" (by decide)).2.2.1⟩

/-- C4: if the corpus build yields zero documents, the run terminates with
the fatal error before any output file is judged.  Otherwise a file whose
read fails produces exactly one row — labelled `"error"`, with zero
tokens, shingles and scores and a note identifying the failure — the rest
of the batch is processed unchanged, and in the per-model summary that
file is counted once under (its model, `"error"`) and under no other
cell. -/
theorem run_eval_error_handling (corpus : List Doc) (patterns : List (String → Bool))
    (genre_of : String → Option String) (n : ℤ) (thr cthr : ℚ)
    (pre suf : List OutFile) (f : OutFile) (e : String) :
    (corpus = [] → run_eval corpus patterns genre_of n thr cthr (pre ++ f :: suf)
        = Except.error fatal_no_docs)
    ∧ (corpus ≠ [] → f.read = ReadResult.err e →
        run_eval corpus patterns genre_of n thr cthr (pre ++ f :: suf)
          = Except.ok (pre.map (process_file corpus patterns genre_of n thr cthr)
              ++ error_row f e :: suf.map (process_file corpus patterns genre_of n thr cthr))
        ∧ (error_row f e).label = "error" ∧ (error_row f e).tokens = 0
        ∧ (error_row f e).shingles = 0 ∧ (error_row f e).max_jaccard = 0
        ∧ (error_row f e).max_containment = 0
        ∧ (error_row f e).note = "read_error:" ++ e
        ∧ counts_by_model (pre.map (process_file corpus patterns genre_of n thr cthr)
              ++ error_row f e :: suf.map (process_file corpus patterns genre_of n thr cthr))
              f.model_dir "error"
            = counts_by_model (pre.map (process_file corpus patterns genre_of n thr cthr)
                ++ suf.map (process_file corpus patterns genre_of n thr cthr))
                f.model_dir "error" + 1
        ∧ ∀ m lab, ¬(m = f.model_dir ∧ lab = "error") →
            counts_by_model (pre.map (process_file corpus patterns genre_of n thr cthr)
                ++ error_row f e :: suf.map (process_file corpus patterns genre_of n thr cthr))
                m lab
              = counts_by_model (pre.map (process_file corpus patterns genre_of n thr cthr)
                  ++ suf.map (process_file corpus patterns genre_of n thr cthr)) m lab) := by
  refine ⟨fun h => ?_, fun hc hf => ?_⟩
  · subst h
    rfl
  · have hpf : process_file corpus patterns genre_of n thr cthr f = error_row f e := by
      unfold process_file
      rw [hf]
    refine ⟨?_, rfl, rfl, rfl, rfl, rfl, rfl, ?_, ?_⟩
    · unfold run_eval
      rw [if_neg (fun h0 => hc (List.length_eq_zero.mp h0)), List.map_append, List.map_cons, hpf]
    · simp only [counts_by_model, List.filter_append, List.filter_cons, decide_eq_true_eq]
      rw [if_pos ⟨rfl, rfl⟩]
      simp [List.length_append]
      omega
    · intro m lab hm
      simp only [counts_by_model, List.filter_append, List.filter_cons, decide_eq_true_eq]
      rw [if_neg (fun h0 => hm ⟨h0.1.symm, h0.2.symm⟩)]

/-- Witness for C4: a one-document corpus and a single output file whose
read fails with `"boom"`. -/
theorem run_eval_error_handling_witness :
    run_eval [cdoc] [] (fun _ => none) 5 (3/10) (3/10) [cfileErr]
      = Except.ok [error_row cfileErr "boom"]
    ∧ (error_row cfileErr "boom").label = "error"
    ∧ counts_by_model [error_row cfileErr "boom"] "modelA" "error" = 1 := by
  have h := (run_eval_error_handling [cdoc] [] (fun _ => none) 5 (3/10) (3/10)
      [] [] cfileErr "boom").2 (List.cons_ne_nil cdoc []) rfl
  obtain ⟨h1, h2, -, -, -, -, -, h8, -⟩ := h
  exact ⟨by simpa using h1, h2, by simpa using h8⟩

/-- C7 counterexample: a run producing one (error) row writes the header
`row_keys` — the row-dict key order, which differs from the spec's
JudgmentRow field list in names (`best_song_jaccard` /
`best_song_containment` vs `best_jaccard_match` / `best_containment_match`),
in order (`lang` second, `model`/`mode` near the end) and in carrying the
extra `memorization_flag` field; `eval_judge.py`'s fixed header differs as
well. -/
theorem csv_header_mismatch :
    csv_header [error_row cfileErr "boom"] ≠ spec_judgment_row_fields
    ∧ csv_header [error_row cfileErr "boom"] = row_keys
    ∧ judge_fieldnames ≠ spec_judgment_row_fields := by
  refine ⟨?_, ?_, ?_⟩ <;> decide

/-- C7 amended: whenever the corpus is non-empty and at least one output
file is processed, the row table of `eval_coverage.py` begins with the
header `row_keys` — `output_path, lang, tokens, shingles, max_jaccard,
best_song_jaccard, max_containment, best_song_containment, genre,
memorization_flag, model, mode, label, note`, the insertion order of the
row dicts — and with zero rows the fixed fallback header (same fields,
`model`/`mode` moved after `output_path`) is used instead. -/
theorem csv_header_behavior (corpus : List Doc) (patterns : List (String → Bool))
    (genre_of : String → Option String) (n : ℤ) (thr cthr : ℚ) (files : List OutFile)
    (hc : corpus ≠ []) (hf : files ≠ []) :
    (∃ rows, run_eval corpus patterns genre_of n thr cthr files = Except.ok rows
       ∧ rows ≠ [] ∧ csv_header rows = row_keys)
    ∧ csv_header [] = fallback_header := by
  refine ⟨⟨files.map (process_file corpus patterns genre_of n thr cthr), ?_, ?_, ?_⟩, rfl⟩
  · unfold run_eval
    rw [if_neg (fun h0 => hc (List.length_eq_zero.mp h0))]
  · exact fun h0 => hf (List.map_eq_nil_iff.mp h0)
  · unfold csv_header
    rw [if_neg (fun h0 => hf (List.map_eq_nil_iff.mp h0))]

/-- Witness for C7 amended: one-document corpus, one output file. -/
theorem csv_header_behavior_witness :
    (∃ rows, run_eval [cdoc] [] (fun _ => none) 5 (3/10) (3/10) [cfileErr] = Except.ok rows
       ∧ rows ≠ [] ∧ csv_header rows = row_keys)
    ∧ csv_header [] = fallback_header :=
  csv_header_behavior [cdoc] [] (fun _ => none) 5 (3/10) (3/10) [cfileErr]
    (List.cons_ne_nil cdoc []) (List.cons_ne_nil cfileErr [])

/-- Appending through the aggregation fold equals a `filterMap`: the loop
`acc.append(v r) if p r` over `rows`, started from `acc`, yields `acc`
followed by the values of the rows satisfying `p`, in row order. -/
theorem foldl_append_eq_filterMap (p : Row → Prop) [DecidablePred p] (v : Row → ℚ) :
    ∀ (rows : List Row) (acc : List ℚ),
      rows.foldl (fun acc r => if p r then acc ++ [v r] else acc) acc
        = acc ++ rows.filterMap (fun r => if p r then some (v r) else none) := by
  intro rows
  induction rows with
  | nil => intro acc; simp
  | cons r tl ih =>
    intro acc
    rw [List.foldl_cons, List.filterMap_cons]
    by_cases hp : p r
    · rw [if_pos hp, if_pos hp, ih, List.append_assoc, List.singleton_append]
    · rw [if_neg hp, if_neg hp, ih]

theorem genre_scores_eq (rows : List Row) (g : String) :
    genre_scores rows g = rows.filterMap
      (fun r => if r.genre = g ∧ r.genre ≠ "?" then some r.max_containment else none) := by
  unfold genre_scores
  simpa using foldl_append_eq_filterMap
    (fun r => r.genre = g ∧ r.genre ≠ "?") (fun r => r.max_containment) rows []

theorem lang_scores_eq (rows : List Row) (l : String) :
    lang_scores rows l = rows.filterMap
      (fun r => if r.lang = l ∧ r.lang ≠ "?" then some r.max_containment else none) := by
  unfold lang_scores
  simpa using foldl_append_eq_filterMap
    (fun r => r.lang = l ∧ r.lang ≠ "?") (fun r => r.max_containment) rows []

theorem genre_scores_perm {rows₁ rows₂ : List Row} (h : rows₁.Perm rows₂) (g : String) :
    (genre_scores rows₁ g).Perm (genre_scores rows₂ g) := by
  rw [genre_scores_eq, genre_scores_eq]
  exact h.filterMap _

theorem lang_scores_perm {rows₁ rows₂ : List Row} (h : rows₁.Perm rows₂) (l : String) :
    (lang_scores rows₁ l).Perm (lang_scores rows₂ l) := by
  rw [lang_scores_eq, lang_scores_eq]
  exact h.filterMap _

theorem counts_by_model_perm {rows₁ rows₂ : List Row} (h : rows₁.Perm rows₂)
    (m lab : String) : counts_by_model rows₁ m lab = counts_by_model rows₂ m lab :=
  (h.filter _).length_eq

/-- `mean` is invariant under permutation of its input list. -/
theorem mean_perm {xs ys : List ℚ} (h : xs.Perm ys) : mean xs = mean ys := by
  have hnil : xs = [] ↔ ys = [] := by
    constructor <;> intro h0 <;> subst h0
    · exact (List.Perm.nil_eq h).symm
    · exact (List.Perm.nil_eq h.symm).symm
  unfold mean
  by_cases hx : xs = []
  · rw [if_pos hx, if_pos (hnil.mp hx)]
  · rw [if_neg hx, if_neg (fun h0 => hx (hnil.mpr h0)), h.sum_eq, h.length_eq]

/-- C8: the per-model label counts and the per-genre and per-language
count / mean-containment summaries are invariant under every permutation of
the order in which the rows are fed to the aggregator. -/
theorem aggregation_perm_invariant (rows₁ rows₂ : List Row) (h : rows₁.Perm rows₂) :
    (∀ m lab, counts_by_model rows₁ m lab = counts_by_model rows₂ m lab)
    ∧ (∀ g, (genre_scores rows₁ g).length = (genre_scores rows₂ g).length
        ∧ mean (genre_scores rows₁ g) = mean (genre_scores rows₂ g))
    ∧ (∀ l, (lang_scores rows₁ l).length = (lang_scores rows₂ l).length
        ∧ mean (lang_scores rows₁ l) = mean (lang_scores rows₂ l)) :=
  ⟨fun m lab => counts_by_model_perm h m lab,
   fun g => ⟨(genre_scores_perm h g).length_eq, mean_perm (genre_scores_perm h g)⟩,
   fun l => ⟨(lang_scores_perm h l).length_eq, mean_perm (lang_scores_perm h l)⟩⟩

/-- Witness for C8: two concrete rows fed in both orders. -/
theorem aggregation_perm_invariant_witness :
    counts_by_model [crow1, crow2] "m1" "correct"
      = counts_by_model [crow2, crow1] "m1" "correct"
    ∧ mean (genre_scores [crow1, crow2] "pop") = mean (genre_scores [crow2, crow1] "pop")
    ∧ mean (lang_scores [crow1, crow2] "de") = mean (lang_scores [crow2, crow1] "de") :=
  ⟨(aggregation_perm_invariant [crow1, crow2] [crow2, crow1]
      (List.Perm.swap crow2 crow1 [])).1 "m1" "correct",
   ((aggregation_perm_invariant [crow1, crow2] [crow2, crow1]
      (List.Perm.swap crow2 crow1 [])).2.1 "pop").2,
   ((aggregation_perm_invariant [crow1, crow2] [crow2, crow1]
      (List.Perm.swap crow2 crow1 [])).2.2 "de").2⟩

end Eval
